import Mathlib

/-!
# Verification of the VPS-deployer orchestration layer

A shallow embedding of the VM-lifecycle orchestration code of the
`vps-deployer` repository (a Discord bot driving a Proxmox cluster), together
with proofs and refutations of the specification's claims about it.

The embedding follows the Python source:

* `src/config.py` — static settings and the built-in template catalog;
* `src/models/database.py` — the entity records (VM, Deployment, Backup);
* `src/discord_bot/cogs/vm_management.py` — the VM command handlers
  (`vm_create`, `vm_start`, `vm_stop`, `vm_reboot`, `vm_delete`, `vm_clone`,
  `vm_resize`);
* `src/discord_bot/cogs/backup_management.py` — the backup command handlers
  (`backup_create`, `backup_cleanup`);
* `src/proxmox/proxmox_client.py` — the gateway transport (`_make_request`,
  `check_vmid_exists`, `get_vm_by_name`).

Remote Proxmox calls are modelled by explicit oracles (records of the answers
the remote side would give); each handler returns the list of remote calls it
actually issued, its outcome, and the updated local datastore, so that
"no remote call is issued" and "the registry is unchanged" are directly
statable.  The database manager (`utils/database.py`, not part of the sources)
is modelled as pure list manipulation following the spec's §4.2 narrow
mutators; where it alone decides a claim this is flagged in the theorem's
documentation.
-/

namespace VPS

/-! ## Configuration (`src/config.py`) -/

/-- One entry of `Settings.available_templates` in `src/config.py`. -/
structure TemplateInfo where
  display : String
  template_file : String
  min_memory : Int
  min_cores : Int
  min_disk : Int
  default_user : String
  ssh_port : Nat
  deriving Repr, DecidableEq

/-- The built-in template catalog from `src/config.py` (`available_templates`). -/
def available_templates : List (String × TemplateInfo) :=
  [ ("ubuntu-22.04",
      ⟨"Ubuntu 22.04 LTS", "ubuntu-22.04-standard_22.04-1_amd64.tar.zst",
        1024, 1, 20, "ubuntu", 22⟩),
    ("ubuntu-20.04",
      ⟨"Ubuntu 20.04 LTS", "ubuntu-20.04-standard_20.04-1_amd64.tar.zst",
        1024, 1, 20, "ubuntu", 22⟩),
    ("debian-12",
      ⟨"Debian 12 (Bookworm)", "debian-12-standard_12.0-1_amd64.tar.zst",
        1024, 1, 20, "debian", 22⟩),
    ("debian-11",
      ⟨"Debian 11 (Bullseye)", "debian-11-standard_11.7-1_amd64.tar.zst",
        1024, 1, 20, "debian", 22⟩),
    ("centos-8",
      ⟨"CentOS 8 Stream", "centos-8-standard_8-1_amd64.tar.zst",
        1024, 1, 20, "centos", 22⟩),
    ("alpine-3.18",
      ⟨"Alpine Linux 3.18", "alpine-3.18-standard_3.18.4-1_amd64.tar.zst",
        512, 1, 10, "root", 22⟩) ]

/-- `template in settings.available_templates` followed by the dictionary read
`settings.available_templates[template]` in `vm_create`. -/
def findTemplate (t : String) : Option TemplateInfo :=
  (available_templates.find? (fun p => p.1 == t)).map Prod.snd

/-- The settings fields of `src/config.py` consumed by the handlers. -/
structure Settings where
  default_storage : String
  default_network_bridge : String
  max_vms_per_user : Nat
  backup_retention_days : Nat
  deriving Repr, DecidableEq

/-- Default values from `src/config.py`. -/
def settings : Settings :=
  { default_storage := "local-lvm"
    default_network_bridge := "vmbr0"
    max_vms_per_user := 5
    backup_retention_days := 30 }

/-! ## The local VM registry (`src/models/database.py`, class `VM`) -/

/-- The fields of the `VM` row that the claims are about, as written by
`vm_create`'s `vm_data` dictionary.  `vm_id` is the Proxmox-assigned
identifier, `owner_id` the Discord user id. -/
structure VMRec where
  vm_id : Nat
  name : String
  template : String
  memory : Int
  cores : Int
  disk_size : Int
  node : String
  storage : String
  network_bridge : String
  status : String
  owner_id : Nat
  deriving Repr, DecidableEq

/-- The local datastore of VM rows. -/
abbrev Registry := List VMRec

/-- `database.get_vm_by_id(vmid)`: lookup of a VM row by its Proxmox id
(spec §4.2 `get_by_hypervisor_id`; absence is a normal not-found result). -/
def get_vm_by_id (reg : Registry) (vmid : Nat) : Option VMRec :=
  reg.find? (fun v => v.vm_id == vmid)

/-- `database.update_vm_status(vmid, status)` (spec §4.2 narrow mutator). -/
def update_vm_status (reg : Registry) (vmid : Nat) (st : String) : Registry :=
  reg.map (fun v => if v.vm_id == vmid then { v with status := st } else v)

/-- `database.update_vm_disk_size(vmid, new_size)` (spec §4.2 narrow mutator). -/
def update_vm_disk_size (reg : Registry) (vmid : Nat) (sz : Int) : Registry :=
  reg.map (fun v => if v.vm_id == vmid then { v with disk_size := sz } else v)

/-- `database.delete_vm(vmid)`: remove the row with the given Proxmox id. -/
def delete_vm (reg : Registry) (vmid : Nat) : Registry :=
  reg.filter (fun v => !(v.vm_id == vmid))

/-- Number of VM rows owned by a user (`count(VMs owned)` of the quota
property; `get_user_vms(user_id)` length). -/
def ownedCount (reg : Registry) (userId : Nat) : Nat :=
  (reg.filter (fun v => v.owner_id == userId)).length

/-! ## Remote calls and gateway oracles for the command handlers -/

/-- The remote Proxmox calls a VM/backup command handler can issue, in the
order the handler issues them.  A handler result lists exactly the calls it
made, so "no remote call is issued" is the statement `calls = []`.
`deleteBackup` corresponds to the `proxmox.delete_backup` call attempted by
`backup_cleanup` — a method `ProxmoxClient` does not define, so no handler
ever actually issues it; the constructor exists so that absence is
statable. -/
inductive RemoteCall
  | getNodes
  | getNextVmid
  | createVM (node : String) (vmid : Nat)
  | startVM (node : String) (vmid : Nat)
  | stopVM (node : String) (vmid : Nat)
  | rebootVM (node : String) (vmid : Nat)
  | deleteVM (node : String) (vmid : Nat)
  | cloneVM (node : String) (vmid newid : Nat)
  | resizeDisk (node : String) (vmid : Nat) (disk size : String)
  | createBackup (node : String) (vmid : Nat)
  | getBackups (node : String) (vmid : Nat)
  | deleteBackup (node : String) (volid : String)
  deriving Repr, DecidableEq

/-- A backup entry as returned by the remote `get_backups` listing:
the volume id and the creation timestamp (`ctime`). -/
structure BackupRec where
  volid : String
  ctime : Int
  deriving Repr, DecidableEq

/-- Answers the remote side would give to each call a handler can make.
`Except.error` models the Python call raising an exception, which the
handler's `except` block turns into a failure report. -/
structure Gateway where
  nodesRes : Except String (List String)
  nextVmidRes : Except String Nat
  createRes : Except String Unit
  startRes : Except String Unit
  stopRes : Except String Unit
  rebootRes : Except String Unit
  deleteRes : Except String Unit
  cloneRes : Except String Unit
  resizeRes : Except String Unit
  createBackupRes : Except String Unit
  backupsRes : Except String (List BackupRec)

/-- A gateway on which every remote call succeeds. -/
def gwOk : Gateway :=
  { nodesRes := .ok ["pve"]
    nextVmidRes := .ok 105
    createRes := .ok ()
    startRes := .ok ()
    stopRes := .ok ()
    rebootRes := .ok ()
    deleteRes := .ok ()
    cloneRes := .ok ()
    resizeRes := .ok ()
    createBackupRes := .ok ()
    backupsRes := .ok [] }

/-- Which of the three resource dimensions failed a template-minimum check. -/
inductive Dim
  | memory | cores | disk
  deriving Repr, DecidableEq

/-- How a handler invocation ends.  Each rejection constructor corresponds to
one early-`return` message of the Python handler; `remoteFailure` is the
handler's `except` block catching an exception from a Proxmox call.
`vmBusy` does not occur in any handler — it is in the type so that the
spec's `VMBusyError` claim can be stated and refuted. -/
inductive Outcome
  | success
  | permissionDenied
  | invalidTemplate (t : String)
  | resourceBelowMinimum (d : Dim)
  | noNodes
  | notOwner
  | sizeNotLarger
  | noSchedule
  | nothingToClean
  | vmBusy
  | remoteFailure (msg : String)
  deriving Repr, DecidableEq

/-- Result of one VM command handler invocation: its outcome, the remote
calls it issued (in order), and the VM registry it leaves behind. -/
structure HResult where
  outcome : Outcome
  calls : List RemoteCall
  registry : Registry
  deriving Repr, DecidableEq

/-! ## `vm_create` (`src/discord_bot/cogs/vm_management.py`, lines 30–129) -/

/-- Tail of `vm_create` after node selection: `get_next_vmid`, the remote
`create_vm`, then `database.create_vm` persisting the `vm_data` row. -/
def vm_create_rest (gw : Gateway) (reg : Registry) (userId : Nat)
    (name template : String) (memory cores disk : Int) (node : String)
    (calls : List RemoteCall) : HResult :=
  match gw.nextVmidRes with
  | .error e => ⟨.remoteFailure e, calls ++ [.getNextVmid], reg⟩
  | .ok vmid =>
    match gw.createRes with
    | .error e => ⟨.remoteFailure e, calls ++ [.getNextVmid, .createVM node vmid], reg⟩
    | .ok _ =>
      ⟨.success, calls ++ [.getNextVmid, .createVM node vmid],
        reg ++ [⟨vmid, name, template, memory, cores, disk, node,
                settings.default_storage, settings.default_network_bridge,
                "stopped", userId⟩]⟩

/-- The `vm_create` handler: permission check, template validation, the three
template-minimum checks (memory, cores, disk, in source order), node
selection (`get_nodes` only when no node was given), then
`vm_create_rest`.  There is no quota check in the source. -/
def vm_create (gw : Gateway) (reg : Registry) (hasPermission : Bool)
    (userId : Nat) (name template : String) (memory cores disk : Int)
    (node : Option String) : HResult :=
  if hasPermission = false then ⟨.permissionDenied, [], reg⟩
  else
    match findTemplate template with
    | none => ⟨.invalidTemplate template, [], reg⟩
    | some ti =>
      if memory < ti.min_memory then ⟨.resourceBelowMinimum .memory, [], reg⟩
      else if cores < ti.min_cores then ⟨.resourceBelowMinimum .cores, [], reg⟩
      else if disk < ti.min_disk then ⟨.resourceBelowMinimum .disk, [], reg⟩
      else
        match node with
        | some n => vm_create_rest gw reg userId name template memory cores disk n []
        | none =>
          match gw.nodesRes with
          | .error e => ⟨.remoteFailure e, [.getNodes], reg⟩
          | .ok [] => ⟨.noNodes, [.getNodes], reg⟩
          | .ok (n :: _) =>
            vm_create_rest gw reg userId name template memory cores disk n [.getNodes]

/-! ## The per-VM mutating handlers (`vm_management.py`) -/

/-- `vm_start` (lines 169–201): ownership guard, remote `start_vm`, then
`update_vm_status(vmid, "running")`. -/
def vm_start (gw : Gateway) (reg : Registry) (userId vmid : Nat) : HResult :=
  match get_vm_by_id reg vmid with
  | none => ⟨.notOwner, [], reg⟩
  | some vm =>
    if vm.owner_id ≠ userId then ⟨.notOwner, [], reg⟩
    else
      match gw.startRes with
      | .error e => ⟨.remoteFailure e, [.startVM vm.node vmid], reg⟩
      | .ok _ => ⟨.success, [.startVM vm.node vmid], update_vm_status reg vmid "running"⟩

/-- `vm_stop` (lines 203–235): ownership guard, remote `stop_vm`, then
`update_vm_status(vmid, "stopped")`. -/
def vm_stop (gw : Gateway) (reg : Registry) (userId vmid : Nat) : HResult :=
  match get_vm_by_id reg vmid with
  | none => ⟨.notOwner, [], reg⟩
  | some vm =>
    if vm.owner_id ≠ userId then ⟨.notOwner, [], reg⟩
    else
      match gw.stopRes with
      | .error e => ⟨.remoteFailure e, [.stopVM vm.node vmid], reg⟩
      | .ok _ => ⟨.success, [.stopVM vm.node vmid], update_vm_status reg vmid "stopped"⟩

/-- `vm_reboot` (lines 237–266): ownership guard, remote `reboot_vm`;
no database write. -/
def vm_reboot (gw : Gateway) (reg : Registry) (userId vmid : Nat) : HResult :=
  match get_vm_by_id reg vmid with
  | none => ⟨.notOwner, [], reg⟩
  | some vm =>
    if vm.owner_id ≠ userId then ⟨.notOwner, [], reg⟩
    else
      match gw.rebootRes with
      | .error e => ⟨.remoteFailure e, [.rebootVM vm.node vmid], reg⟩
      | .ok _ => ⟨.success, [.rebootVM vm.node vmid], reg⟩

/-- `vm_delete` (lines 268–299): ownership guard, remote `delete_vm`, then
`database.delete_vm(vmid)`. -/
def vm_delete (gw : Gateway) (reg : Registry) (userId vmid : Nat) : HResult :=
  match get_vm_by_id reg vmid with
  | none => ⟨.notOwner, [], reg⟩
  | some vm =>
    if vm.owner_id ≠ userId then ⟨.notOwner, [], reg⟩
    else
      match gw.deleteRes with
      | .error e => ⟨.remoteFailure e, [.deleteVM vm.node vmid], reg⟩
      | .ok _ => ⟨.success, [.deleteVM vm.node vmid], delete_vm reg vmid⟩

/-- `vm_clone` (lines 353–420): ownership guard, `get_next_vmid` when no new
id was supplied, remote `clone_vm`, then a new VM row copying the source
row's resources, owned by the caller. -/
def vm_clone (gw : Gateway) (reg : Registry) (userId vmid : Nat)
    (newName : String) (newVmid : Option Nat) : HResult :=
  match get_vm_by_id reg vmid with
  | none => ⟨.notOwner, [], reg⟩
  | some vm =>
    if vm.owner_id ≠ userId then ⟨.notOwner, [], reg⟩
    else
      let idCalls : List RemoteCall :=
        match newVmid with
        | some _ => []
        | none => [.getNextVmid]
      match (match newVmid with
             | some n => Except.ok n
             | none => gw.nextVmidRes) with
      | .error e => ⟨.remoteFailure e, idCalls, reg⟩
      | .ok nid =>
        match gw.cloneRes with
        | .error e => ⟨.remoteFailure e, idCalls ++ [.cloneVM vm.node vmid nid], reg⟩
        | .ok _ =>
          ⟨.success, idCalls ++ [.cloneVM vm.node vmid nid],
            reg ++ [⟨nid, newName, vm.template, vm.memory, vm.cores, vm.disk_size,
                    vm.node, vm.storage, vm.network_bridge, "stopped", userId⟩]⟩

/-- `vm_resize` (lines 422–467): ownership guard, the strict-growth check
`new_size <= vm["disk_size"]`, remote `resize_disk` on
`storage:vm-id-disk-0`, then `update_vm_disk_size`. -/
def vm_resize (gw : Gateway) (reg : Registry) (userId vmid : Nat)
    (new_size : Int) : HResult :=
  match get_vm_by_id reg vmid with
  | none => ⟨.notOwner, [], reg⟩
  | some vm =>
    if vm.owner_id ≠ userId then ⟨.notOwner, [], reg⟩
    else if new_size ≤ vm.disk_size then ⟨.sizeNotLarger, [], reg⟩
    else
      let diskStr := vm.storage ++ ":vm-" ++ toString vmid ++ "-disk-0"
      let sizeStr := toString new_size ++ "G"
      match gw.resizeRes with
      | .error e => ⟨.remoteFailure e, [.resizeDisk vm.node vmid diskStr sizeStr], reg⟩
      | .ok _ =>
        ⟨.success, [.resizeDisk vm.node vmid diskStr sizeStr],
          update_vm_disk_size reg vmid new_size⟩

/-! ## Backup handlers (`backup_management.py`) -/

/-- Result of a backup handler: outcome, remote calls, the (never modified
by these handlers) VM registry, and the local backup table
(`Backup.backup_id` column values). -/
structure BResult where
  outcome : Outcome
  calls : List RemoteCall
  registry : Registry
  backupsDb : List String
  deriving Repr, DecidableEq

/-- `backup_create` (lines 28–96): role-permission guard, ownership guard,
remote `create_backup`, then a local `Backup` row.  `autoName` is the
timestamp-derived name used when none was supplied. -/
def backup_create (gw : Gateway) (reg : Registry) (backupsDb : List String)
    (hasPermission : Bool) (userId vmid : Nat)
    (backupName : Option String) (autoName : String) : BResult :=
  if hasPermission = false then ⟨.permissionDenied, [], reg, backupsDb⟩
  else
    match get_vm_by_id reg vmid with
    | none => ⟨.notOwner, [], reg, backupsDb⟩
    | some vm =>
      if vm.owner_id ≠ userId then ⟨.notOwner, [], reg, backupsDb⟩
      else
        let bname := backupName.getD autoName
        match gw.createBackupRes with
        | .error e => ⟨.remoteFailure e, [.createBackup vm.node vmid], reg, backupsDb⟩
        | .ok _ =>
          ⟨.success, [.createBackup vm.node vmid], reg, backupsDb ++ [bname]⟩

/-- The descending-by-`ctime` comparison used by `backup_cleanup`'s
`backups.sort(key=lambda x: x.get("ctime", 0), reverse=True)`. -/
def ctimeDesc (a b : BackupRec) : Bool := b.ctime ≤ a.ctime

/-- Result of `backup_cleanup`: outcome, remote calls, the backups removed
from the remote store, and the backups still present after the run. -/
structure CleanupResult where
  outcome : Outcome
  calls : List RemoteCall
  deleted : List BackupRec
  kept : List BackupRec
  deriving Repr, DecidableEq

/-- `backup_cleanup` (lines 365–424): permission and ownership guards, the
per-VM schedule lookup (its `retention` count), the remote backup listing,
the `len(backups) <= retention` early return, then the newest-first sort
(key `ctimeDesc`) and a loop over `backups[retention:]` attempting
`self.bot.proxmox.delete_backup(...)` for each.  `ProxmoxClient` defines no
`delete_backup` method, so each iteration raises `AttributeError` at the
attribute access — before any remote call — and the inner
`except Exception` catches it (`logger.warning`) and continues, which also
skips the `database.delete_backup` on the next line.  The loop therefore
has no observable effect: no `deleteBackup` remote call is issued, nothing
is removed, `deleted_count` stays 0, and the handler still reports the
cleanup as completed. -/
def backup_cleanup (gw : Gateway) (reg : Registry) (hasPermission : Bool)
    (userId vmid : Nat) (schedule : Option Nat) : CleanupResult :=
  if hasPermission = false then ⟨.permissionDenied, [], [], []⟩
  else
    match get_vm_by_id reg vmid with
    | none => ⟨.notOwner, [], [], []⟩
    | some vm =>
      if vm.owner_id ≠ userId then ⟨.notOwner, [], [], []⟩
      else
        match schedule with
        | none => ⟨.noSchedule, [], [], []⟩
        | some retention =>
          match gw.backupsRes with
          | .error e => ⟨.remoteFailure e, [.getBackups vm.node vmid], [], []⟩
          | .ok backups =>
            if backups.length ≤ retention then
              ⟨.nothingToClean, [.getBackups vm.node vmid], [], backups⟩
            else
              ⟨.success, [.getBackups vm.node vmid], [], backups⟩

/-! ## Gateway transport (`src/proxmox/proxmox_client.py`) -/

/-- The raw (JSON-text) payload of a successful response envelope. -/
abbrev PxData := String

/-- What one HTTP attempt against the Proxmox API can come back as:
a 200 response with a data envelope, a non-200 response with an error
envelope (`errors.message`), or a transport-level exception from the
session (connection refused, TLS failure, timeout). -/
inductive HttpOutcome
  | status200 (data : PxData)
  | httpError (code : Nat) (msg : String)
  | transportFail (msg : String)
  deriving Repr, DecidableEq

/-- The exceptions `_make_request` can raise: the not-connected guard, the
normalized application-level failure carrying the remote `errors.message`,
and a re-raised transport-level exception. -/
inductive PxError
  | notConnected
  | apiError (msg : String)
  | transport (msg : String)
  deriving Repr, DecidableEq

/-- Result of `_make_request`: its value or exception, plus how many HTTP
attempts were actually issued on the wire. -/
structure ReqResult where
  result : Except PxError PxData
  attempts : Nat
  deriving Repr

/-- `_make_request` (lines 95–118): raise when `self.session` is `None`
(`connected = false`) without touching the network, otherwise issue exactly
one HTTP attempt and normalize it — a 200 yields the body, a non-200
raises with the remote message, a transport exception is re-raised.
`http n` is what the (n+1)-st HTTP attempt would return, were it issued;
the body consults only `http 0`, since it has no retry loop. -/
def make_request (connected : Bool) (_method _endpoint : String)
    (http : Nat → HttpOutcome) : ReqResult :=
  if connected = false then ⟨.error .notConnected, 0⟩
  else
    match http 0 with
    | .status200 d => ⟨.ok d, 1⟩
    | .httpError _ msg => ⟨.error (.apiError msg), 1⟩
    | .transportFail msg => ⟨.error (.transport msg), 1⟩

/-- `get_nodes` at the transport level: one `GET nodes` request. -/
def get_nodes_req (connected : Bool) (http : Nat → HttpOutcome) : ReqResult :=
  make_request connected "GET" "nodes" http

/-- `get_vm_status` at the transport level. -/
def get_vm_status_req (connected : Bool) (node : String) (vmid : Nat)
    (http : Nat → HttpOutcome) : ReqResult :=
  make_request connected "GET"
    ("nodes/" ++ node ++ "/qemu/" ++ toString vmid ++ "/status/current") http

/-- `create_vm` at the transport level. -/
def create_vm_req (connected : Bool) (node : String)
    (http : Nat → HttpOutcome) : ReqResult :=
  make_request connected "POST" ("nodes/" ++ node ++ "/qemu") http

/-- `start_vm` at the transport level. -/
def start_vm_req (connected : Bool) (node : String) (vmid : Nat)
    (http : Nat → HttpOutcome) : ReqResult :=
  make_request connected "POST"
    ("nodes/" ++ node ++ "/qemu/" ++ toString vmid ++ "/status/start") http

/-- `delete_vm` at the transport level. -/
def delete_vm_req (connected : Bool) (node : String) (vmid : Nat)
    (http : Nat → HttpOutcome) : ReqResult :=
  make_request connected "DELETE"
    ("nodes/" ++ node ++ "/qemu/" ++ toString vmid) http

/-- `get_next_vmid` at the transport level: one `GET cluster/nextid`. -/
def get_next_vmid_req (connected : Bool) (http : Nat → HttpOutcome) : ReqResult :=
  make_request connected "GET" "cluster/nextid" http

/-! ## The exception-swallowing read helpers (lines 332–355) -/

/-- One entry of a per-node VM listing (`vmid` and `name` keys). -/
structure VmListEntry where
  vmid : Nat
  name : String
  deriving Repr, DecidableEq

/-- Typed results of the read endpoints consumed by `check_vmid_exists` and
`get_vm_by_name`: `get_nodes` and the per-node `get_vms`.  An `.error`
models the underlying `_make_request` raising — including the
not-connected case, where every read raises `PxError.notConnected`. -/
structure ClusterView where
  getNodesRes : Except PxError (List String)
  getVmsRes : String → Except PxError (List VmListEntry)

/-- The view seen before `connect()` has established a session: every
underlying read raises the not-connected error. -/
def disconnectedView : ClusterView :=
  { getNodesRes := .error .notConnected
    getVmsRes := fun _ => .error .notConnected }

/-- The node loop of `check_vmid_exists`: fetch each node's VM list (a
failure propagates to the surrounding `try`), return `true` on the first
matching `vmid`, `false` after exhausting all nodes. -/
def scanNodes (cv : ClusterView) (vmid : Nat) : List String → Except PxError Bool
  | [] => .ok false
  | n :: rest =>
    match cv.getVmsRes n with
    | .error e => .error e
    | .ok vms =>
      if vms.any (fun v => v.vmid == vmid) then .ok true
      else scanNodes cv vmid rest

/-- The `try` body of `check_vmid_exists` (lines 334–342). -/
def check_vmid_exists_body (cv : ClusterView) (vmid : Nat) : Except PxError Bool :=
  match cv.getNodesRes with
  | .error e => .error e
  | .ok nodes => scanNodes cv vmid nodes

/-- `check_vmid_exists` (lines 332–344): the body wrapped in
`try ... except: return False`. -/
def check_vmid_exists (cv : ClusterView) (vmid : Nat) : Bool :=
  match check_vmid_exists_body cv vmid with
  | .ok b => b
  | .error _ => false

/-- The all-nodes branch of `get_vms` (lines 142–154): a per-node listing
failure is only logged (`logger.warning`) and that node is skipped. -/
def collectVms (cv : ClusterView) : List String → List VmListEntry
  | [] => []
  | n :: rest =>
    match cv.getVmsRes n with
    | .error _ => collectVms cv rest
    | .ok vms => vms ++ collectVms cv rest

/-- The `try` body of `get_vm_by_name` (lines 348–353): `get_vms()` over all
nodes (its `get_nodes` failure propagates), then a linear name search. -/
def get_vm_by_name_body (cv : ClusterView) (name : String) :
    Except PxError (Option VmListEntry) :=
  match cv.getNodesRes with
  | .error e => .error e
  | .ok nodes => .ok ((collectVms cv nodes).find? (fun v => v.name == name))

/-- `get_vm_by_name` (lines 346–355): the body wrapped in
`try ... except: return None`. -/
def get_vm_by_name (cv : ClusterView) (name : String) : Option VmListEntry :=
  match get_vm_by_name_body cv name with
  | .ok r => r
  | .error _ => none

/-! ## Interleaving model of concurrent `vm_start` handlers

`vm_start` is an `async` handler whose body is cut into atomic segments by
its `await` points: (1) the database read `get_vm_by_id` plus the ownership
check, (2) the remote `start_vm` call, (3) the database status update.
Between segments the event loop may run the other handler.  There is no
lock, busy flag, or in-flight check anywhere in the handler, so the segments
of two invocations for the same VM can interleave freely. -/

/-- Where one in-flight `vm_start` invocation stands: before its database
read, past the ownership check (remembering the VM's node), past the
remote call, or finished with an outcome. -/
inductive Phase
  | ready
  | afterCheck (node : String)
  | afterRemote
  | finished (o : Outcome)
  deriving Repr, DecidableEq

/-- Two concurrent `vm_start` invocations for the same VM plus the shared
state they touch: the registry, and the remote calls issued so far. -/
structure Sys where
  reg : Registry
  calls : List RemoteCall
  t1 : Phase
  t2 : Phase
  deriving Repr, DecidableEq

/-- Run one atomic segment of a `vm_start` invocation (remote `start_vm`
modelled as succeeding).  A finished invocation stays finished. -/
def stepPhase (userId vmid : Nat) (reg : Registry) (calls : List RemoteCall) :
    Phase → Registry × List RemoteCall × Phase
  | .ready =>
    match get_vm_by_id reg vmid with
    | none => (reg, calls, .finished .notOwner)
    | some vm =>
      if vm.owner_id ≠ userId then (reg, calls, .finished .notOwner)
      else (reg, calls, .afterCheck vm.node)
  | .afterCheck node => (reg, calls ++ [.startVM node vmid], .afterRemote)
  | .afterRemote => (update_vm_status reg vmid "running", calls, .finished .success)
  | .finished o => (reg, calls, .finished o)

/-- Run the two invocations under a schedule: `true` advances the first
task by one segment, `false` the second. -/
def runSchedule (userId vmid : Nat) : List Bool → Sys → Sys
  | [], s => s
  | pick :: rest, s =>
    if pick then
      let r := stepPhase userId vmid s.reg s.calls s.t1
      runSchedule userId vmid rest ⟨r.1, r.2.1, r.2.2, s.t2⟩
    else
      let r := stepPhase userId vmid s.reg s.calls s.t2
      runSchedule userId vmid rest ⟨r.1, r.2.1, s.t1, r.2.2⟩

/-- Does a phase stand at a `VMBusyError` rejection?  (No segment produces
one; the definition exists so the absence is statable.) -/
def finishedBusy : Phase → Bool
  | .finished .vmBusy => true
  | _ => false

/-! ## Deployment tracker state machine

Modelled from the spec: the Deployment status writes live in the database
manager (`utils/database.py`), which is not among the sources — `src/` holds
only the `Deployment` row declaration (`src/models/database.py`, lines
75–95: status `pending`, `in_progress`, `completed`, `failed`, default
`pending`) and read-only consumers.  Spec §4.3: a Deployment is created
`pending`, moves to `in_progress` exactly when the Gateway call is
dispatched, then to `completed` or `failed`; terminal states are final. -/

/-- The `Deployment.status` enumeration of `src/models/database.py`. -/
inductive DepStatus
  | pending
  | in_progress
  | completed
  | failed
  deriving Repr, DecidableEq

/-- The Deployment fields the state machine touches. -/
structure Dep where
  status : DepStatus
  progress : Nat
  error_message : Option String
  deriving Repr, DecidableEq

/-- Modelled from the spec (§4.3 `open`): a Deployment is created in
`pending` the instant the Policy Engine approves an intent. -/
def dep_open : Dep := ⟨.pending, 0, none⟩

/-- Modelled from the spec (§4.3 `mark_in_progress`): the transition to
`in_progress` occurs exactly when the Gateway call is dispatched, i.e.
from `pending`; from any other status the write is refused. -/
def mark_in_progress (d : Dep) : Option Dep :=
  if d.status = .pending then some { d with status := .in_progress } else none

/-- Modelled from the spec (§4.3 `mark_completed`): success of the Gateway
call (and its task poll) closes an `in_progress` Deployment. -/
def mark_completed (d : Dep) : Option Dep :=
  if d.status = .in_progress then some { d with status := .completed, progress := 100 }
  else none

/-- Modelled from the spec (§4.3 `mark_failed`): a Gateway error, a
post-commit write failure, or a poll timeout fails an `in_progress`
Deployment, recording a human-readable cause. -/
def mark_failed (d : Dep) (reason : String) : Option Dep :=
  if d.status = .in_progress then
    some { d with status := .failed, error_message := some reason }
  else none

/-- One observed status change: some tracker operation was applied and its
guarded write succeeded. -/
inductive DepStep : Dep → Dep → Prop
  | dispatch (d d' : Dep) : mark_in_progress d = some d' → DepStep d d'
  | complete (d d' : Dep) : mark_completed d = some d' → DepStep d d'
  | fail (d d' : Dep) (reason : String) : mark_failed d reason = some d' → DepStep d d'

/-! ## Concrete fixtures used by closed theorems -/

/-- A registry in which user 1 already owns `settings.max_vms_per_user`
(five) VMs. -/
def atQuotaRegistry : Registry :=
  [ ⟨100, "web1", "ubuntu-22.04", 2048, 2, 32, "pve", "local-lvm", "vmbr0", "stopped", 1⟩,
    ⟨101, "web2", "ubuntu-22.04", 2048, 2, 32, "pve", "local-lvm", "vmbr0", "stopped", 1⟩,
    ⟨102, "web3", "ubuntu-22.04", 2048, 2, 32, "pve", "local-lvm", "vmbr0", "running", 1⟩,
    ⟨103, "web4", "debian-12", 2048, 2, 32, "pve", "local-lvm", "vmbr0", "stopped", 1⟩,
    ⟨104, "web5", "debian-12", 2048, 2, 32, "pve", "local-lvm", "vmbr0", "stopped", 1⟩ ]

/-- A one-VM registry: Proxmox id 100, owned by user 1. -/
def oneVmRegistry : Registry :=
  [ ⟨100, "web1", "ubuntu-22.04", 2048, 2, 32, "pve", "local-lvm", "vmbr0", "stopped", 1⟩ ]

/-! ## C1 — per-user quota at creation time -/

/-- C1.  The spec claims a creation attempt by a user already owning
`max_vms_per_user` VMs fails with `QuotaExceededError` and leaves the
Registry unchanged.  The `vm_create` handler has no quota check at all:
with user 1 at the quota of five VMs, the sixth creation attempt succeeds,
issues the remote identifier allocation and create call, and persists a
sixth row.  (`max_vms_per_user` is read nowhere except the usage-statistics
display in `user_management.py`.) -/
theorem vm_create_at_quota_still_succeeds :
    ownedCount atQuotaRegistry 1 = settings.max_vms_per_user ∧
    (vm_create gwOk atQuotaRegistry true 1 "web6" "ubuntu-22.04" 2048 2 32
        (some "pve")).outcome = .success ∧
    (vm_create gwOk atQuotaRegistry true 1 "web6" "ubuntu-22.04" 2048 2 32
        (some "pve")).calls = [.getNextVmid, .createVM "pve" 105] ∧
    ownedCount (vm_create gwOk atQuotaRegistry true 1 "web6" "ubuntu-22.04" 2048 2 32
        (some "pve")).registry 1 = settings.max_vms_per_user + 1 := by
  decide

/-! ## C2 — template resource minimums -/

/-- C2.  A creation request below any of the named template's minimums is
rejected at the resource-validation step with the failing dimension, before
any remote call: no hypervisor identifier is allocated (`get_next_vmid` is
not reached — no remote call at all is issued) and the registry is
unchanged. -/
theorem vm_create_below_minimum_rejected
    (gw : Gateway) (reg : Registry) (userId : Nat) (name template : String)
    (memory cores disk : Int) (node : Option String) (ti : TemplateInfo)
    (hti : findTemplate template = some ti)
    (hlow : memory < ti.min_memory ∨ cores < ti.min_cores ∨ disk < ti.min_disk) :
    (∃ d, (vm_create gw reg true userId name template memory cores disk node).outcome
        = .resourceBelowMinimum d) ∧
    (vm_create gw reg true userId name template memory cores disk node).calls = [] ∧
    (vm_create gw reg true userId name template memory cores disk node).registry = reg := by
  unfold vm_create
  by_cases h1 : memory < ti.min_memory
  · refine ⟨⟨.memory, ?_⟩, ?_, ?_⟩ <;> simp [hti, h1]
  · by_cases h2 : cores < ti.min_cores
    · refine ⟨⟨.cores, ?_⟩, ?_, ?_⟩ <;> simp [hti, h1, h2]
    · have h3 : disk < ti.min_disk := by
        rcases hlow with h | h | h
        · exact absurd h h1
        · exact absurd h h2
        · exact h
      refine ⟨⟨.disk, ?_⟩, ?_, ?_⟩ <;> simp [hti, h1, h2, h3]

/-- Witness for C2 at a concrete input: 512 MB requested against the
1024 MB minimum of `ubuntu-22.04`. -/
theorem vm_create_below_minimum_rejected_witness :
    (∃ d, (vm_create gwOk [] true 1 "tiny" "ubuntu-22.04" 512 2 32 none).outcome
        = .resourceBelowMinimum d) ∧
    (vm_create gwOk [] true 1 "tiny" "ubuntu-22.04" 512 2 32 none).calls = [] ∧
    (vm_create gwOk [] true 1 "tiny" "ubuntu-22.04" 512 2 32 none).registry = [] :=
  vm_create_below_minimum_rejected gwOk [] 1 "tiny" "ubuntu-22.04" 512 2 32 none
    ⟨"Ubuntu 22.04 LTS", "ubuntu-22.04-standard_22.04-1_amd64.tar.zst",
      1024, 1, 20, "ubuntu", 22⟩
    (by decide) (Or.inl (by decide))

/-! ## C5 — ownership guard on every per-VM mutating operation -/

/-- C5.  Each per-VM mutating handler — start, stop, reboot, delete, resize,
clone, backup — looks the VM up by id and rejects when no row exists or the
caller is not the recorded owner, before issuing any remote call: the
result carries an empty call list and the unchanged registry.
`backup_create` additionally has a role-permission guard ahead of the
ownership guard, so a non-owner's attempt ends as either rejection; its
backup table is also unchanged.  (The `get_vm_by_id` lookup itself lives in
the database manager, modelled as a list lookup per spec §4.2.) -/
theorem mutating_ops_reject_non_owner
    (gw : Gateway) (reg : Registry) (backupsDb : List String)
    (userId vmid : Nat) (newName : String) (newVmid : Option Nat)
    (new_size : Int) (hasPermission : Bool)
    (backupName : Option String) (autoName : String)
    (h : get_vm_by_id reg vmid = none ∨
         ∃ vm, get_vm_by_id reg vmid = some vm ∧ vm.owner_id ≠ userId) :
    vm_start gw reg userId vmid = ⟨.notOwner, [], reg⟩ ∧
    vm_stop gw reg userId vmid = ⟨.notOwner, [], reg⟩ ∧
    vm_reboot gw reg userId vmid = ⟨.notOwner, [], reg⟩ ∧
    vm_delete gw reg userId vmid = ⟨.notOwner, [], reg⟩ ∧
    vm_clone gw reg userId vmid newName newVmid = ⟨.notOwner, [], reg⟩ ∧
    vm_resize gw reg userId vmid new_size = ⟨.notOwner, [], reg⟩ ∧
    (backup_create gw reg backupsDb hasPermission userId vmid backupName autoName
        = ⟨.permissionDenied, [], reg, backupsDb⟩ ∨
     backup_create gw reg backupsDb hasPermission userId vmid backupName autoName
        = ⟨.notOwner, [], reg, backupsDb⟩) := by
  rcases h with hnone | ⟨vm, hvm, hown⟩
  · refine ⟨?_, ?_, ?_, ?_, ?_, ?_, ?_⟩ <;>
      simp [vm_start, vm_stop, vm_reboot, vm_delete, vm_clone, vm_resize,
        backup_create, hnone]
  · refine ⟨?_, ?_, ?_, ?_, ?_, ?_, ?_⟩ <;>
      simp [vm_start, vm_stop, vm_reboot, vm_delete, vm_clone, vm_resize,
        backup_create, hvm, hown]

/-- Witness for C5: user 2 attempts every mutating operation on VM 100,
which is owned by user 1. -/
theorem mutating_ops_reject_non_owner_witness :
    vm_start gwOk oneVmRegistry 2 100 = ⟨.notOwner, [], oneVmRegistry⟩ ∧
    vm_stop gwOk oneVmRegistry 2 100 = ⟨.notOwner, [], oneVmRegistry⟩ ∧
    vm_reboot gwOk oneVmRegistry 2 100 = ⟨.notOwner, [], oneVmRegistry⟩ ∧
    vm_delete gwOk oneVmRegistry 2 100 = ⟨.notOwner, [], oneVmRegistry⟩ ∧
    vm_clone gwOk oneVmRegistry 2 100 "copy" none = ⟨.notOwner, [], oneVmRegistry⟩ ∧
    vm_resize gwOk oneVmRegistry 2 100 64 = ⟨.notOwner, [], oneVmRegistry⟩ ∧
    (backup_create gwOk oneVmRegistry [] true 2 100 none "auto"
        = ⟨.permissionDenied, [], oneVmRegistry, []⟩ ∨
     backup_create gwOk oneVmRegistry [] true 2 100 none "auto"
        = ⟨.notOwner, [], oneVmRegistry, []⟩) :=
  mutating_ops_reject_non_owner gwOk oneVmRegistry [] 2 100 "copy" none 64 true
    none "auto"
    (Or.inr ⟨⟨100, "web1", "ubuntu-22.04", 2048, 2, 32, "pve", "local-lvm",
      "vmbr0", "stopped", 1⟩, by decide, by decide⟩)

/-! ## C9 — disk resize only ever grows -/

/-- C9.  For the owner's resize request: a new size at most the recorded
disk size is rejected at the `new_size <= vm["disk_size"]` guard — no
remote call, registry (hence the recorded size) unchanged — while a
strictly larger size proceeds to the remote `resize_disk` call on
`storage:vm-<id>-disk-0`. -/
theorem vm_resize_strict_growth
    (gw : Gateway) (reg : Registry) (userId vmid : Nat) (new_size : Int)
    (vm : VMRec) (hvm : get_vm_by_id reg vmid = some vm)
    (hown : vm.owner_id = userId) :
    (new_size ≤ vm.disk_size →
      vm_resize gw reg userId vmid new_size = ⟨.sizeNotLarger, [], reg⟩) ∧
    (vm.disk_size < new_size →
      (vm_resize gw reg userId vmid new_size).calls =
        [.resizeDisk vm.node vmid (vm.storage ++ ":vm-" ++ toString vmid ++ "-disk-0")
          (toString new_size ++ "G")]) := by
  constructor
  · intro hle
    simp [vm_resize, hvm, hown, hle]
  · intro hlt
    have hnle : ¬ new_size ≤ vm.disk_size := by omega
    rcases hres : gw.resizeRes with e | u <;>
      simp [vm_resize, hvm, hown, hnle, hres]

/-- Witness for C9: owner 1 shrinks VM 100 from 32 GB to 20 GB (rejected)
and grows it to 64 GB (remote resize issued). -/
theorem vm_resize_strict_growth_witness :
    ((20 : Int) ≤ 32 →
      vm_resize gwOk oneVmRegistry 1 100 20 = ⟨.sizeNotLarger, [], oneVmRegistry⟩) ∧
    ((32 : Int) < 64 →
      (vm_resize gwOk oneVmRegistry 1 100 64).calls =
        [.resizeDisk "pve" 100 ("local-lvm" ++ ":vm-" ++ toString (100 : Nat) ++ "-disk-0")
          (toString (64 : Int) ++ "G")]) :=
  ⟨(vm_resize_strict_growth gwOk oneVmRegistry 1 100 20
      ⟨100, "web1", "ubuntu-22.04", 2048, 2, 32, "pve", "local-lvm", "vmbr0",
        "stopped", 1⟩ (by decide) (by decide)).1,
   (vm_resize_strict_growth gwOk oneVmRegistry 1 100 64
      ⟨100, "web1", "ubuntu-22.04", 2048, 2, 32, "pve", "local-lvm", "vmbr0",
        "stopped", 1⟩ (by decide) (by decide)).2⟩

/-! ## C3 — backup cleanup under a retention count -/

/-- A gateway whose backup listing returns three backups with creation
times 5, 1 and 9. -/
def gwBackups : Gateway :=
  { gwOk with backupsRes := .ok [⟨"b1", 5⟩, ⟨"b2", 1⟩, ⟨"b3", 9⟩] }

/-- C3.  The spec claims a cleanup run leaves exactly `min N total` backups,
removing the oldest first.  The handler's own code plainly intends this —
it sorts newest-first and loops over `backups[retention:]` to delete — but
`ProxmoxClient` defines no `delete_backup` method, so every iteration
raises `AttributeError` before any remote call and is swallowed by the
inner `except`: for the owner's run with a schedule of retention `N`,
whatever the remote listing holds, nothing is deleted, every backup
remains (so `total` remain where the claim requires `min N total`), and no
`deleteBackup` remote call is ever issued, while the handler still
finishes the run as a success when `total > N`. -/
theorem backup_cleanup_deletes_nothing
    (gw : Gateway) (reg : Registry) (userId vmid : Nat) (retention : Nat)
    (vm : VMRec) (backups : List BackupRec)
    (hvm : get_vm_by_id reg vmid = some vm) (hown : vm.owner_id = userId)
    (hbk : gw.backupsRes = .ok backups) :
    (backup_cleanup gw reg true userId vmid (some retention)).deleted = [] ∧
    (backup_cleanup gw reg true userId vmid (some retention)).kept = backups ∧
    (∀ node volid, RemoteCall.deleteBackup node volid ∉
      (backup_cleanup gw reg true userId vmid (some retention)).calls) ∧
    (backups.length > retention →
      (backup_cleanup gw reg true userId vmid (some retention)).outcome
        = .success) := by
  by_cases hle : backups.length ≤ retention
  · refine ⟨?_, ?_, ?_, ?_⟩ <;>
      simp [backup_cleanup, hvm, hown, hbk, hle]
  · refine ⟨?_, ?_, ?_, ?_⟩ <;>
      simp [backup_cleanup, hvm, hown, hbk, hle]

/-- Witness for C3 at the failing input: three remote backups, retention
two — the claim requires two backups left (the oldest removed), but all
three remain, none is deleted, and the run is reported as a success. -/
theorem backup_cleanup_deletes_nothing_witness :
    (backup_cleanup gwBackups oneVmRegistry true 1 100 (some 2)).deleted = [] ∧
    (backup_cleanup gwBackups oneVmRegistry true 1 100 (some 2)).kept.length = 3 ∧
    (backup_cleanup gwBackups oneVmRegistry true 1 100 (some 2)).kept.length
      ≠ min 2 3 ∧
    (RemoteCall.deleteBackup "pve" "b2" ∉
      (backup_cleanup gwBackups oneVmRegistry true 1 100 (some 2)).calls) ∧
    (backup_cleanup gwBackups oneVmRegistry true 1 100 (some 2)).outcome
      = .success := by
  have h := backup_cleanup_deletes_nothing gwBackups oneVmRegistry 1 100 2
    ⟨100, "web1", "ubuntu-22.04", 2048, 2, 32, "pve", "local-lvm", "vmbr0",
      "stopped", 1⟩
    [⟨"b1", 5⟩, ⟨"b2", 1⟩, ⟨"b3", 9⟩]
    (by decide) rfl rfl
  refine ⟨h.1, ?_, ?_, h.2.2.1 "pve" "b2", h.2.2.2 (by decide)⟩
  · rw [h.2.1]
    decide
  · rw [h.2.1]
    decide

/-! ## C6 — behaviour of operations invoked before `connect()` -/

/-- C6 counterexample.  The claim says *every* gateway operation other than
`connect()` fails with `NotConnectedError` before a session exists.
`check_vmid_exists` and `get_vm_by_name` do not: their `try/except`
swallows the not-connected failure raised by the underlying reads and they
return `False` / `None` as ordinary values instead of failing. -/
theorem check_vmid_exists_swallows_not_connected :
    check_vmid_exists_body disconnectedView 100 = .error .notConnected ∧
    check_vmid_exists disconnectedView 100 = false ∧
    get_vm_by_name_body disconnectedView "web1" = .error .notConnected ∧
    get_vm_by_name disconnectedView "web1" = none :=
  ⟨rfl, rfl, rfl, rfl⟩

/-- C6 as amended.  Every operation that issues its request through
`_make_request` fails with the not-connected error and performs zero HTTP
attempts when invoked before `connect()`; the two exception-swallowing
helpers instead return `false` / `none` (still touching the network only
through the same failing reads). -/
theorem ops_before_connect (http : Nat → HttpOutcome) (node nm : String)
    (vmid : Nat) :
    (get_nodes_req false http).result = .error .notConnected ∧
    (get_nodes_req false http).attempts = 0 ∧
    (get_vm_status_req false node vmid http).result = .error .notConnected ∧
    (get_vm_status_req false node vmid http).attempts = 0 ∧
    (create_vm_req false node http).result = .error .notConnected ∧
    (create_vm_req false node http).attempts = 0 ∧
    (start_vm_req false node vmid http).result = .error .notConnected ∧
    (start_vm_req false node vmid http).attempts = 0 ∧
    (delete_vm_req false node vmid http).result = .error .notConnected ∧
    (delete_vm_req false node vmid http).attempts = 0 ∧
    (get_next_vmid_req false http).result = .error .notConnected ∧
    (get_next_vmid_req false http).attempts = 0 ∧
    check_vmid_exists disconnectedView vmid = false ∧
    get_vm_by_name disconnectedView nm = none :=
  ⟨rfl, rfl, rfl, rfl, rfl, rfl, rfl, rfl, rfl, rfl, rfl, rfl, rfl, rfl⟩

/-! ## C7 — retry behaviour of `_make_request` -/

/-- An HTTP oracle whose first attempt fails at the transport level and
whose second attempt would succeed — exactly the situation a retrying
client would recover from. -/
def flakyHttp : Nat → HttpOutcome
  | 0 => .transportFail "connection refused"
  | _ => .status200 "nodes-data"

/-- C7 counterexample.  The claim says transport-level failures are retried
with exponential backoff before surfacing as `GatewayUnavailableError`.
`_make_request` has no retry loop: on an oracle whose second attempt would
succeed, it issues exactly one attempt and surfaces the raw transport
error immediately. -/
theorem make_request_no_transport_retry :
    (make_request true "GET" "nodes" flakyHttp).attempts = 1 ∧
    (make_request true "GET" "nodes" flakyHttp).result
      = .error (.transport "connection refused") ∧
    flakyHttp 1 = .status200 "nodes-data" :=
  ⟨rfl, rfl, rfl⟩

/-- C7 as amended.  Once connected, `_make_request` issues exactly one HTTP
attempt for every request and surfaces the first attempt's failure
immediately, whether transport-level (re-raised as-is, never wrapped or
retried) or application-level (raised with the remote `errors.message`,
never retried). -/
theorem make_request_single_attempt (method endpoint : String)
    (http : Nat → HttpOutcome) :
    (make_request true method endpoint http).attempts = 1 ∧
    (∀ msg, http 0 = .transportFail msg →
      (make_request true method endpoint http).result = .error (.transport msg)) ∧
    (∀ code msg, http 0 = .httpError code msg →
      (make_request true method endpoint http).result = .error (.apiError msg)) := by
  refine ⟨?_, ?_, ?_⟩
  · cases h : http 0 <;> simp [make_request, h]
  · intro msg h
    simp [make_request, h]
  · intro code msg h
    simp [make_request, h]

/-- Witness for the amended C7 at the concrete flaky oracle. -/
theorem make_request_single_attempt_witness :
    (make_request true "GET" "cluster/nextid" flakyHttp).attempts = 1 ∧
    (make_request true "GET" "cluster/nextid" flakyHttp).result
      = .error (.transport "connection refused") :=
  ⟨(make_request_single_attempt "GET" "cluster/nextid" flakyHttp).1,
   (make_request_single_attempt "GET" "cluster/nextid" flakyHttp).2.1
     "connection refused" rfl⟩

/-! ## C10 — totality of the exception-swallowing read helpers -/

/-- C10.  `check_vmid_exists` and `get_vm_by_name` are total at the public
interface: whatever the underlying gateway reads do — including failing —
they never propagate the failure, returning the body's value when it
succeeds and `false` / `none` when any underlying read fails. -/
theorem read_helpers_never_propagate (cv : ClusterView) (vmid : Nat)
    (nm : String) :
    (∀ e, check_vmid_exists_body cv vmid = .error e →
      check_vmid_exists cv vmid = false) ∧
    (∀ b, check_vmid_exists_body cv vmid = .ok b →
      check_vmid_exists cv vmid = b) ∧
    (∀ e, get_vm_by_name_body cv nm = .error e →
      get_vm_by_name cv nm = none) ∧
    (∀ r, get_vm_by_name_body cv nm = .ok r →
      get_vm_by_name cv nm = r) := by
  refine ⟨?_, ?_, ?_, ?_⟩ <;> intro x h <;>
    simp [check_vmid_exists, get_vm_by_name, h]

/-- Witness for C10 on the fully failing (pre-connect) view. -/
theorem read_helpers_never_propagate_witness :
    check_vmid_exists disconnectedView 100 = false ∧
    get_vm_by_name disconnectedView "web1" = none :=
  ⟨(read_helpers_never_propagate disconnectedView 100 "web1").1 .notConnected rfl,
   (read_helpers_never_propagate disconnectedView 100 "web1").2.2.1 .notConnected rfl⟩

/-! ## C8 — concurrent mutating operations on the same VM -/

/-- No atomic segment of a `vm_start` invocation can move a task to a
`VMBusyError` rejection — the handler has no such code path. -/
theorem stepPhase_not_busy (userId vmid : Nat) (reg : Registry)
    (calls : List RemoteCall) (p : Phase) (hp : finishedBusy p = false) :
    finishedBusy (stepPhase userId vmid reg calls p).2.2 = false := by
  cases p with
  | ready =>
    cases h : get_vm_by_id reg vmid with
    | none => simp [stepPhase, h, finishedBusy]
    | some vm =>
      by_cases hown : vm.owner_id ≠ userId <;>
        simp [stepPhase, h, hown, finishedBusy]
  | afterCheck node => simp [stepPhase, finishedBusy]
  | afterRemote => simp [stepPhase, finishedBusy]
  | finished o => simpa [stepPhase] using hp

/-- Under any schedule, neither of two interleaved `vm_start` invocations
ever ends in a `VMBusyError` rejection. -/
theorem runSchedule_not_busy (userId vmid : Nat) (sched : List Bool) (s : Sys)
    (h1 : finishedBusy s.t1 = false) (h2 : finishedBusy s.t2 = false) :
    finishedBusy (runSchedule userId vmid sched s).t1 = false ∧
    finishedBusy (runSchedule userId vmid sched s).t2 = false := by
  induction sched generalizing s with
  | nil => exact ⟨h1, h2⟩
  | cons pick rest ih =>
    cases pick
    · simp only [runSchedule, if_neg Bool.false_ne_true]
      exact ih _ h1 (stepPhase_not_busy userId vmid s.reg s.calls s.t2 h2)
    · simp only [runSchedule, if_pos rfl]
      exact ih _ (stepPhase_not_busy userId vmid s.reg s.calls s.t1 h1) h2

/-- C8 as amended.  Two concurrent `vm_start` invocations for the same
owned VM are not serialized: under no interleaving is either rejected with
`VMBusyError` (the handler has no such path), and under the alternating
schedule — where both pass the ownership check before either issues its
remote call — both issue the remote start and both finish successfully,
so two mutating operations are simultaneously in flight for one VM. -/
theorem concurrent_vm_start_not_serialized
    (userId vmid : Nat) (reg : Registry) (vm : VMRec) (sched : List Bool)
    (hvm : get_vm_by_id reg vmid = some vm) (hown : vm.owner_id = userId) :
    finishedBusy (runSchedule userId vmid sched ⟨reg, [], .ready, .ready⟩).t1
        = false ∧
    finishedBusy (runSchedule userId vmid sched ⟨reg, [], .ready, .ready⟩).t2
        = false ∧
    (runSchedule userId vmid [true, false, true, false]
        ⟨reg, [], .ready, .ready⟩).t1 = .afterRemote ∧
    (runSchedule userId vmid [true, false, true, false]
        ⟨reg, [], .ready, .ready⟩).t2 = .afterRemote ∧
    (runSchedule userId vmid [true, false, true, false, true, false]
        ⟨reg, [], .ready, .ready⟩).t1 = .finished .success ∧
    (runSchedule userId vmid [true, false, true, false, true, false]
        ⟨reg, [], .ready, .ready⟩).t2 = .finished .success ∧
    (runSchedule userId vmid [true, false, true, false, true, false]
        ⟨reg, [], .ready, .ready⟩).calls
        = [.startVM vm.node vmid, .startVM vm.node vmid] := by
  obtain ⟨hb1, hb2⟩ := runSchedule_not_busy userId vmid sched
    ⟨reg, [], .ready, .ready⟩ rfl rfl
  refine ⟨hb1, hb2, ?_, ?_, ?_, ?_, ?_⟩ <;>
    simp [runSchedule, stepPhase, hvm, hown]

/-- Witness for C8 as amended: user 1 starts VM 100 twice, interleaved. -/
theorem concurrent_vm_start_not_serialized_witness :
    finishedBusy (runSchedule 1 100 [true, true, false]
        ⟨oneVmRegistry, [], .ready, .ready⟩).t1 = false ∧
    finishedBusy (runSchedule 1 100 [true, true, false]
        ⟨oneVmRegistry, [], .ready, .ready⟩).t2 = false ∧
    (runSchedule 1 100 [true, false, true, false]
        ⟨oneVmRegistry, [], .ready, .ready⟩).t1 = .afterRemote ∧
    (runSchedule 1 100 [true, false, true, false]
        ⟨oneVmRegistry, [], .ready, .ready⟩).t2 = .afterRemote ∧
    (runSchedule 1 100 [true, false, true, false, true, false]
        ⟨oneVmRegistry, [], .ready, .ready⟩).t1 = .finished .success ∧
    (runSchedule 1 100 [true, false, true, false, true, false]
        ⟨oneVmRegistry, [], .ready, .ready⟩).t2 = .finished .success ∧
    (runSchedule 1 100 [true, false, true, false, true, false]
        ⟨oneVmRegistry, [], .ready, .ready⟩).calls
        = [.startVM "pve" 100, .startVM "pve" 100] :=
  concurrent_vm_start_not_serialized 1 100 oneVmRegistry
    ⟨100, "web1", "ubuntu-22.04", 2048, 2, 32, "pve", "local-lvm", "vmbr0",
      "stopped", 1⟩
    [true, true, false] (by decide) (by decide)

/-- C8 counterexample.  At the concrete interleaving of two `vm_start`
invocations by the owner of VM 100, both invocations proceed and succeed
and both remote start calls are issued — not "exactly one succeeds and the
other is rejected with `VMBusyError`". -/
theorem concurrent_vm_start_both_succeed :
    (runSchedule 1 100 [true, false, true, false, true, false]
        ⟨oneVmRegistry, [], .ready, .ready⟩).t1 = .finished .success ∧
    (runSchedule 1 100 [true, false, true, false, true, false]
        ⟨oneVmRegistry, [], .ready, .ready⟩).t2 = .finished .success ∧
    (runSchedule 1 100 [true, false, true, false, true, false]
        ⟨oneVmRegistry, [], .ready, .ready⟩).calls
        = [.startVM "pve" 100, .startVM "pve" 100] := by
  decide

/-! ## C4 — Deployment status order and terminal finality -/

/-- C4 (modelled from the spec, see the section header above).  Every
observed Deployment status change is either `pending → in_progress` or
`in_progress → completed` / `in_progress → failed` — so `in_progress` is
never skipped — and no status change leaves `completed` or `failed`. -/
theorem deployment_status_order :
    (∀ d d', DepStep d d' →
      (d.status = .pending ∧ d'.status = .in_progress) ∨
      (d.status = .in_progress ∧
        (d'.status = .completed ∨ d'.status = .failed))) ∧
    (∀ d, (d.status = .completed ∨ d.status = .failed) →
      ∀ d', ¬ DepStep d d') := by
  constructor
  · intro d d' hstep
    cases hstep with
    | dispatch h =>
      unfold mark_in_progress at h
      split at h
      · cases h
        exact Or.inl ⟨by assumption, rfl⟩
      · cases h
    | complete h =>
      unfold mark_completed at h
      split at h
      · cases h
        exact Or.inr ⟨by assumption, Or.inl rfl⟩
      · cases h
    | fail reason h =>
      unfold mark_failed at h
      split at h
      · cases h
        exact Or.inr ⟨by assumption, Or.inr rfl⟩
      · cases h
  · intro d hterm d' hstep
    cases hstep with
    | dispatch h =>
      unfold mark_in_progress at h
      split at h
      · rcases hterm with ht | ht <;> simp_all
      · cases h
    | complete h =>
      unfold mark_completed at h
      split at h
      · rcases hterm with ht | ht <;> simp_all
      · cases h
    | fail reason h =>
      unfold mark_failed at h
      split at h
      · rcases hterm with ht | ht <;> simp_all
      · cases h

/-- Witness for C4: the dispatch transition on a freshly opened Deployment
is classified as `pending → in_progress`. -/
theorem deployment_status_order_witness :
    (dep_open.status = .pending ∧
      (Dep.mk .in_progress 0 none).status = .in_progress) ∨
    (dep_open.status = .in_progress ∧
      ((Dep.mk .in_progress 0 none).status = .completed ∨
        (Dep.mk .in_progress 0 none).status = .failed)) :=
  deployment_status_order.1 dep_open ⟨.in_progress, 0, none⟩
    (.dispatch _ _ (by simp [mark_in_progress, dep_open]))

end VPS
